import Mathlib

/-!
Shallow embedding of `src/ithaca/scheduler.py` (`SimpleScheduler`), the
background task scheduler and its command channel, for verifying the
specification's claims about it.

Modelling conventions:
* The mutable attributes of a `SimpleScheduler` object that the claims talk
  about are gathered in `SchedulerState`.  Timestamp bookkeeping fields
  (`start_time`, `next_run_time`) are elided; `last_run_time` is kept as an
  abstract `Option Nat` tick because step success sets it.  Logging calls and
  `_update_status` (which writes a pure projection of the state to the status
  file) have no effect on the modelled state and are dropped.
* Python exceptions are modelled with `Except PyExc`; a `try/except` block
  becomes a `match` on the `Except` value.
* The workflow (`Step Executor`) is opaque: its `run`/`init_run` result is a
  parameter `StepOutcome` (truthy return, falsy return, or raised exception).
* The shared state observed by the inter-step wait loop, which the command
  server thread and signal handlers mutate concurrently, is modelled as a
  function `Nat → LoopEnv` giving the values of `running` / `paused` /
  `interval_seconds` at each one-second iteration of the loop.
-/

namespace IthacaScheduler

/-- The mutable scheduler attributes set in `SimpleScheduler.__init__`:
`running = False`, `paused = False`, `step_count = 0`,
`interval_seconds` from the constructor argument, `last_run_time = None`. -/
structure SchedulerState where
  running : Bool
  paused : Bool
  stepCount : Nat
  interval_seconds : Int
  lastRunTime : Option Nat
deriving Repr, DecidableEq

/-- The state right after `__init__` with the default
`interval_seconds = 3600`. -/
def initState : SchedulerState :=
  { running := false, paused := false, stepCount := 0
    interval_seconds := 3600, lastRunTime := none }

/-- `SimpleScheduler.stop`: `if self.running: self.running = False;
self._update_status()`.  Nothing else changes; in particular `paused` is
left as it is. -/
def stop (s : SchedulerState) : SchedulerState :=
  if s.running then { s with running := false } else s

/-- `SimpleScheduler.pause`: `if self.running and not self.paused:
self.paused = True; self._update_status()`. -/
def pause (s : SchedulerState) : SchedulerState :=
  if s.running && !s.paused then { s with paused := true } else s

/-- `SimpleScheduler.resume`: `if self.running and self.paused:
self.paused = False; self._update_status()`. -/
def resume (s : SchedulerState) : SchedulerState :=
  if s.running && s.paused then { s with paused := false } else s

/-- Entry of `SimpleScheduler._run_loop`: `self.running = True;
self.start_time = datetime.now()` (the timestamp is elided). -/
def runLoopEnter (s : SchedulerState) : SchedulerState :=
  { s with running := true }

/-- The `finally` block of `_run_loop`: `self.running = False` before
`_cleanup()`. -/
def runLoopExit (s : SchedulerState) : SchedulerState :=
  { s with running := false }

/-- Result of one call into the opaque workflow: `success` when the call
returns a truthy value, `failure` when it returns a falsy value, `exc`
when it raises (caught by `_execute_step`'s `except Exception`). -/
inductive StepOutcome
  | success
  | failure
  | exc
deriving Repr, DecidableEq

/-- Which workflow entry point `_execute_step` invokes. -/
inductive StepVariant
  | initRun
  | loopRun
deriving Repr, DecidableEq

/-- The dispatch condition in `_execute_step`:
`if self.step_count == 0 and hasattr(self.workflow, "init_run")` then
`self.workflow.init_run()` else `self.workflow.run()`. -/
def chooseVariant (hasInitRun : Bool) (s : SchedulerState) : StepVariant :=
  if s.stepCount = 0 && hasInitRun then .initRun else .loopRun

/-- `SimpleScheduler._execute_step`.  `outcome` gives the opaque workflow's
behaviour for the entry point that gets called; `now` is the tick recorded
as `last_run_time` on success.  On a truthy result `step_count` is
incremented and `last_run_time` set; on a falsy result or a raised
exception (caught and logged) the state is unchanged.  The chosen
`StepVariant` is returned alongside the new state because the source logs
which entry point ran. -/
def executeStep (hasInitRun : Bool) (outcome : StepVariant → StepOutcome)
    (now : Nat) (s : SchedulerState) : SchedulerState × StepVariant :=
  let v := chooseVariant hasInitRun s
  match outcome v with
  | .success =>
      ({ s with stepCount := s.stepCount + 1, lastRunTime := some now }, v)
  | .failure => (s, v)
  | .exc => (s, v)

/-- Python exceptions that the command-handling code can raise: `int()`
raises `ValueError` on a malformed literal, `list[1]` raises `IndexError`
when the list is too short. -/
inductive PyExc
  | valueError
  | indexError
deriving Repr, DecidableEq

/-- The exception's rendering used by `f"Command error: \x7be\x7d"`. -/
def PyExc.msg : PyExc → String
  | .valueError => "ValueError"
  | .indexError => "IndexError"

/-- Worker for `pySplit`: `acc` holds the current word, reversed. -/
def pySplitAux : List Char → List Char → List String
  | [], [] => []
  | [], acc => [⟨acc.reverse⟩]
  | c :: rest, acc =>
      if c.isWhitespace then
        match acc with
        | [] => pySplitAux rest []
        | _ => (⟨acc.reverse⟩ : String) :: pySplitAux rest []
      else pySplitAux rest (c :: acc)

/-- `str.split()` with no arguments: split on runs of whitespace and drop
the empty pieces. -/
def pySplit (s : String) : List String :=
  pySplitAux s.toList []

/-- `str.startswith(pre)`: the prefix test used by the `interval ` branch
dispatch. -/
def pyStartsWith (s pre : String) : Bool :=
  pre.toList.isPrefixOf s.toList

/-- `str.strip()` with no arguments: remove leading and trailing
whitespace. -/
def pyStrip (s : String) : String :=
  ⟨((s.toList.dropWhile Char.isWhitespace).reverse.dropWhile
      Char.isWhitespace).reverse⟩

/-- After the first digit of a Python integer literal: the remaining
characters are digits, with single underscores allowed only between two
digits. -/
def pyDigitsRest : List Char → Bool
  | [] => true
  | '_' :: c :: rest => c.isDigit && pyDigitsRest rest
  | ['_'] => false
  | c :: rest => c.isDigit && pyDigitsRest rest

/-- The digit part of a Python integer literal: a nonempty digit sequence
with underscore grouping. -/
def pyDigits : List Char → Bool
  | [] => false
  | c :: rest => c.isDigit && pyDigitsRest rest

/-- Numeric value of a digit sequence, skipping the `_` separators. -/
def digitsToNat (l : List Char) : Nat :=
  l.foldl (fun acc c => if c = '_' then acc else acc * 10 + (c.toNat - 48)) 0

/-- Python's `int(token)` for a whitespace-free token (the argument in the
source is an element of `command.split()`, which never contains
whitespace): an optional sign followed by a grouped digit sequence;
anything else raises `ValueError`.  (Non-ASCII decimal digits, which
CPython also accepts, are elided.) -/
def pyInt (s : String) : Except PyExc Int :=
  match s.toList with
  | '+' :: rest =>
      if pyDigits rest then .ok (digitsToNat rest) else .error .valueError
  | '-' :: rest =>
      if pyDigits rest then .ok (-(digitsToNat rest : Int)) else .error .valueError
  | l => if pyDigits l then .ok (digitsToNat l) else .error .valueError

/-- Python `list[i]` : raises `IndexError` when out of range. -/
def pyIndex {α : Type} (l : List α) (i : Nat) : Except PyExc α :=
  match l[i]? with
  | some a => .ok a
  | none => .error .indexError

/-- The literal returned by the malformed-`interval` branch. -/
def invalidIntervalMsg : String := "Invalid interval format. Use: interval <seconds>"

/-- The `try` body of the `interval` branch of `_handle_command`:
`new_interval = int(command.split()[1]); self.interval_seconds =
new_interval; return f"Interval changed to \x7bnew_interval\x7d seconds"`. -/
def intervalTry (s : SchedulerState) (command : String) :
    Except PyExc (SchedulerState × String) := do
  let tok ← pyIndex (pySplit command) 1
  let n ← pyInt tok
  pure ({ s with interval_seconds := n },
        "Interval changed to " ++ toString n ++ " seconds")

/-- The `interval ` branch with its `except (ValueError, IndexError)`
handler, which answers `invalidIntervalMsg` and leaves the state alone. -/
def intervalBranch (s : SchedulerState) (command : String) :
    SchedulerState × String :=
  match intervalTry s command with
  | .ok r => r
  | .error _ => (s, invalidIntervalMsg)

/-- Rendering of `json.dumps(self.get_status(), indent=2)` restricted to the
modelled fields; the runtime-only fields of `get_status` (timestamps,
`pid`, `name`, `daemon_mode`, the workflow's `str()`) are elided, and no
claim constrains this string. -/
def statusJson (s : SchedulerState) : String :=
  "\x7b \"running\": " ++ toString s.running ++
  ", \"paused\": " ++ toString s.paused ++
  ", \"step_count\": " ++ toString s.stepCount ++
  ", \"interval_seconds\": " ++ toString s.interval_seconds ++ " \x7d"

/-- The dispatch inside the outer `try` of `_handle_command`.  Every branch
is exception-free: the only raising operations (`command.split()[1]` and
`int(...)`) sit inside `intervalBranch`'s own handler, so the result is
always `.ok`. -/
def handleCommandTry (s : SchedulerState) (command : String) :
    Except PyExc (SchedulerState × String) :=
  if command = "status" then .ok (s, statusJson s)
  else if command = "stop" then .ok (stop s, "Scheduler stopped")
  else if command = "pause" then .ok (pause s, "Scheduler paused")
  else if command = "resume" then .ok (resume s, "Scheduler resumed")
  else if pyStartsWith command "interval " then .ok (intervalBranch s command)
  else .ok (s, "Unknown command: " ++ command)

/-- `SimpleScheduler._handle_command`: the dispatch wrapped in the outer
`except Exception as e: return f"Command error: \x7be\x7d"`. -/
def handleCommand (s : SchedulerState) (command : String) :
    SchedulerState × String :=
  match handleCommandTry s command with
  | .ok r => r
  | .error e => (s, "Command error: " ++ e.msg)

/-- A command string matched by one of the non-catch-all branches of
`_handle_command`. -/
def isKnownCommand (command : String) : Bool :=
  command = "status" || command = "stop" || command = "pause" ||
  command = "resume" || pyStartsWith command "interval "

/-- The slice of shared scheduler state that `_wait_for_next_step` reads:
`self.running`, `self.paused`, `self.interval_seconds`.  The command-server
thread and the signal handlers may change these between the loop's
one-second sleeps, so a run of the wait loop observes a time-indexed
family `Nat → LoopEnv`. -/
structure LoopEnv where
  running : Bool
  paused : Bool
  interval_seconds : Int
deriving Repr, DecidableEq

/-- The loop of `SimpleScheduler._wait_for_next_step`:
`while remaining > 0 and self.running and not self.paused:
sleep(min(1, remaining)); remaining -= sleep_time`.
`remaining` is a local variable; `self.running` and `self.paused` are
re-read from the shared state at iteration `k` (`env k`), but
`self.interval_seconds` is not read here at all.  The result is the total
number of seconds slept. -/
def waitLoop (env : Nat → LoopEnv) (remaining : Int) (k : Nat) : Nat :=
  if _h : 0 < remaining ∧ (env k).running = true ∧ (env k).paused = false then
    (min 1 remaining).toNat + waitLoop env (remaining - min 1 remaining) (k + 1)
  else 0
termination_by remaining.toNat
decreasing_by
  have h1 : min 1 remaining = 1 := by omega
  omega

/-- `SimpleScheduler._wait_for_next_step`: `remaining =
self.interval_seconds` is read once, at entry (tick 0), then the loop
runs; later changes to `interval_seconds` in `env` are invisible to it. -/
def waitForNextStep (env : Nat → LoopEnv) : Nat :=
  waitLoop env (env 0).interval_seconds 0

/-- On-disk artefacts of one scheduler instance: whether the PID file and
the command socket file exist. -/
structure FsWorld where
  pidFileExists : Bool
  socketExists : Bool
deriving Repr, DecidableEq

/-- `SimpleScheduler._write_pid_file`: creates/overwrites the PID file. -/
def writePidFile (w : FsWorld) : FsWorld :=
  { w with pidFileExists := true }

/-- `SimpleScheduler._start_command_server`: unlinks a pre-existing socket
file, then binds a fresh one, so afterwards the socket file exists. -/
def startCommandServer (w : FsWorld) : FsWorld :=
  { w with socketExists := true }

/-- `SimpleScheduler._cleanup`: closes the server, unlinks the socket file
if it exists and the PID file if it exists — both absent afterwards. -/
def cleanup (_w : FsWorld) : FsWorld :=
  { pidFileExists := false, socketExists := false }

/-- The ways `_run_loop` can terminate: `self.running` becoming false
(normal `stop` or a signal handler calling `stop()`), `KeyboardInterrupt`,
or an uncaught exception; all of them reach the `finally: ...
self._cleanup()` block. -/
inductive ExitPath
  | normalStop
  | signalStop
  | keyboardInterrupt
  | uncaughtError
deriving Repr, DecidableEq

/-- File effect of `_run_loop`: the body creates no files, and whichever
way it exits (`ExitPath`), the `finally` block runs `_cleanup`. -/
def runLoopFiles (w : FsWorld) (_e : ExitPath) : FsWorld :=
  cleanup w

/-- File effect of `start_foreground`: it sets `daemon_mode = False` and
calls `_run_loop()` directly — no `_write_pid_file`, no
`_start_command_server`.  The pair is (files when the run loop begins,
files after it exits). -/
def startForegroundFiles (w : FsWorld) (e : ExitPath) : FsWorld × FsWorld :=
  (w, runLoopFiles w e)

/-- File effect of `start_daemon` on the surviving grandchild path: after
the double fork it runs `_write_pid_file()`, `_start_command_server()`,
`_run_loop()`.  The pair is (files when the run loop begins, files after
it exits). -/
def startDaemonFiles (w : FsWorld) (e : ExitPath) : FsWorld × FsWorld :=
  let w1 := startCommandServer (writePidFile w)
  (w1, runLoopFiles w1 e)

/-- Contents of the PID file as seen by `_is_running`: `none` when the file
does not exist, otherwise the text it holds. -/
structure PidWorld where
  pidFile : Option String
deriving Repr, DecidableEq

/-- `SimpleScheduler._is_running`.  `alive pid` models `os.kill(pid, 0)`
succeeding.  A missing file reports not-running; an unparsable content
(`ValueError` from `int`) or a dead process (`OSError` from `os.kill`)
lands in the `except (OSError, ValueError)` branch, which unlinks the
stale PID file and reports not-running. -/
def isRunning (alive : Int → Bool) (w : PidWorld) : Bool × PidWorld :=
  match w.pidFile with
  | none => (false, w)
  | some content =>
      match pyInt (pyStrip content) with
      | .error _ => (false, { pidFile := none })
      | .ok pid =>
          if alive pid then (true, w)
          else (false, { pidFile := none })

/-- The guard at the top of `start_daemon`: `if self._is_running(): ...
return False`.  Returns `true` when startup proceeds to daemonize. -/
def startDaemonProceeds (alive : Int → Bool) (w : PidWorld) :
    Bool × PidWorld :=
  let r := isRunning alive w
  (!r.1, r.2)

/-- Scheduler states reachable from the freshly constructed scheduler via
the public operations: run-loop entry/exit, `stop`/`pause`/`resume` (also
invoked by the signal handlers `_signal_handler`, `_pause_handler`,
`_resume_handler`), command handling, and step execution. -/
inductive Reachable : SchedulerState → Prop
  | init : Reachable initState
  | loopEnter {s : SchedulerState} : Reachable s → Reachable (runLoopEnter s)
  | loopExit {s : SchedulerState} : Reachable s → Reachable (runLoopExit s)
  | stop {s : SchedulerState} : Reachable s → Reachable (stop s)
  | pause {s : SchedulerState} : Reachable s → Reachable (pause s)
  | resume {s : SchedulerState} : Reachable s → Reachable (resume s)
  | command {s : SchedulerState} (c : String) :
      Reachable s → Reachable (handleCommand s c).1
  | step {s : SchedulerState} (hasInitRun : Bool)
      (outcome : StepVariant → StepOutcome) (now : Nat) :
      Reachable s → Reachable (executeStep hasInitRun outcome now s).1

/-- The state reached by run-loop entry, then `pause`, then `stop`. -/
def pausedStoppedState : SchedulerState :=
  stop (pause (runLoopEnter initState))

/-- A shared-state history for `_wait_for_next_step`: the scheduler keeps
running unpaused; `interval_seconds` is 10 when the wait begins and a
command sets it to 2 during the first one-second sleep. -/
def intervalChangeEnv : Nat → LoopEnv := fun k =>
  { running := true, paused := false
    interval_seconds := if k = 0 then 10 else 2 }

/-! Helper lemmas about the wait loop. -/

/-- The wait loop sleeps at most `remaining` seconds: `remaining` starts the
iteration positive or the loop exits, and each iteration sleeps
`min 1 remaining = 1` and decrements `remaining` by the same amount. -/
theorem waitLoop_le (env : Nat → LoopEnv) (r : Int) (k : Nat) :
    waitLoop env r k ≤ r.toNat := by
  rw [waitLoop]
  split
  · next h =>
    have hm : min 1 r = 1 := by omega
    have ih : waitLoop env (r - min 1 r) (k + 1) ≤ (r - min 1 r).toNat :=
      waitLoop_le env (r - min 1 r) (k + 1)
    omega
  · omega
termination_by r.toNat
decreasing_by omega

/-- When the shared flags stay `running = true`, `paused = false` for the
whole wait, the loop sleeps exactly `remaining` seconds (0 when
`remaining` is not positive). -/
theorem waitLoop_all_running (env : Nat → LoopEnv)
    (hflags : ∀ t, (env t).running = true ∧ (env t).paused = false)
    (r : Int) (k : Nat) : waitLoop env r k = r.toNat := by
  rw [waitLoop]
  split
  · next h =>
    have hm : min 1 r = 1 := by omega
    have ih : waitLoop env (r - min 1 r) (k + 1) = (r - min 1 r).toNat :=
      waitLoop_all_running env hflags (r - min 1 r) (k + 1)
    omega
  · next h =>
    have hf := hflags k
    simp only [hf.1, hf.2, and_true, not_lt] at h
    omega
termination_by r.toNat
decreasing_by omega

/-- C10: the inter-step wait terminates — for every integer
`interval_seconds` the wait loop sleeps (hence iterates) at most
`interval_seconds` times, in particular when the `running`/`paused` flags
never change. -/
theorem c10_wait_terminates :
    (∀ (env : Nat → LoopEnv) (r : Int) (k : Nat), waitLoop env r k ≤ r.toNat) ∧
    (∀ (e : LoopEnv), waitForNextStep (fun _ => e) ≤ e.interval_seconds.toNat) :=
  ⟨waitLoop_le, fun e => waitLoop_le (fun _ => e) e.interval_seconds 0⟩

/-- C1 counterexample: with `interval_seconds = 10` at the start of the wait
and 2 from the first tick on (the `interval 2` command landing during the
first one-second sleep), the wait still lasts the full 10 seconds — not at
most 4 (wait start to one tick for the command plus the claimed ≤3
seconds) — because `_wait_for_next_step` reads `interval_seconds` once,
before the loop, and never again. -/
theorem c1_counterexample :
    waitForNextStep intervalChangeEnv = 10 ∧
    ¬(waitForNextStep intervalChangeEnv ≤ 4) := by
  have h := waitLoop_all_running intervalChangeEnv
    (fun t => ⟨rfl, rfl⟩) (intervalChangeEnv 0).interval_seconds 0
  exact ⟨h, by rw [waitForNextStep, h]; decide⟩

/-- C1 (amended): an `interval <seconds>` command does not shorten a wait
already in progress — while `running` stays true and `paused` stays false,
the wait lasts exactly the value `interval_seconds` had when the wait
began, whatever the command thread later writes to it; the new interval
governs only waits that begin after the change.  (Only `stop`/`pause` can
cut a wait short, within one second.) -/
theorem c1_interval_change_next_wait (env : Nat → LoopEnv)
    (hflags : ∀ t, (env t).running = true ∧ (env t).paused = false) :
    waitForNextStep env = (env 0).interval_seconds.toNat :=
  waitLoop_all_running env hflags (env 0).interval_seconds 0

/-- C1 witness: a constant environment with interval 5 waits 5 seconds. -/
theorem c1_interval_change_next_wait_witness :
    waitForNextStep (fun _ => ⟨true, false, 5⟩) = 5 :=
  c1_interval_change_next_wait (fun _ => ⟨true, false, 5⟩) (fun _ => ⟨rfl, rfl⟩)

/-- C8: `stop` is idempotent — a second `stop` changes nothing (the embedded
`stop` is total, so no error can be raised), and `running` is false after
either call. -/
theorem c8_stop_idempotent (s : SchedulerState) :
    stop (stop s) = stop s ∧ (stop s).running = false := by
  cases hr : s.running <;> simp [stop, hr]

/-- C5: `step_count` is incremented exactly when the workflow call returns
success; a falsy result or a raised exception leaves it unchanged, and it
never decreases. -/
theorem c5_step_count_success_only (hasInitRun : Bool)
    (outcome : StepVariant → StepOutcome) (now : Nat) (s : SchedulerState) :
    ((executeStep hasInitRun outcome now s).1.stepCount =
      if outcome (chooseVariant hasInitRun s) = .success then
        s.stepCount + 1 else s.stepCount) ∧
    s.stepCount ≤ (executeStep hasInitRun outcome now s).1.stepCount := by
  cases h : outcome (chooseVariant hasInitRun s) <;>
    simp [executeStep, h]

/-- `_execute_step` reports the variant picked by its dispatch condition,
whatever the workflow call then does. -/
theorem executeStep_snd (hasInitRun : Bool) (outcome : StepVariant → StepOutcome)
    (now : Nat) (s : SchedulerState) :
    (executeStep hasInitRun outcome now s).2 = chooseVariant hasInitRun s := by
  cases h : outcome (chooseVariant hasInitRun s) <;> simp [executeStep, h]

/-- The dispatch condition picks `init_run` exactly on `step_count = 0` with
`init_run` present. -/
theorem chooseVariant_initRun_iff (hasInitRun : Bool) (s : SchedulerState) :
    chooseVariant hasInitRun s = StepVariant.initRun ↔
      (s.stepCount = 0 ∧ hasInitRun = true) := by
  unfold chooseVariant
  cases hn : s.stepCount <;> cases hasInitRun <;> simp

/-- C6 counterexample: when the workflow has `init_run` and the first
invocation fails (falsy result), `step_count` stays 0, so the second
invocation calls `init_run` again — not the regular `run` variant that the
claim promises for every invocation after the first. -/
theorem c6_counterexample :
    (executeStep true (fun _ => StepOutcome.failure) 0 initState).2 =
      StepVariant.initRun ∧
    (executeStep true (fun _ => StepOutcome.failure) 1
        (executeStep true (fun _ => StepOutcome.failure) 0 initState).1).2 =
      StepVariant.initRun := by
  exact ⟨rfl, rfl⟩

/-- C6 (amended): `_execute_step` chooses the initialization variant exactly
when `step_count = 0` and the workflow exposes `init_run` — that is, on
every invocation up to and including the first successful one; after a
success `step_count` becomes positive and never decreases, so all later
invocations use the regular `run` variant. -/
theorem c6_init_until_first_success (hasInitRun : Bool)
    (outcome : StepVariant → StepOutcome) (now : Nat) (s : SchedulerState) :
    ((executeStep hasInitRun outcome now s).2 = StepVariant.initRun ↔
      (s.stepCount = 0 ∧ hasInitRun = true)) ∧
    (outcome (chooseVariant hasInitRun s) = .success →
      0 < (executeStep hasInitRun outcome now s).1.stepCount) ∧
    s.stepCount ≤ (executeStep hasInitRun outcome now s).1.stepCount := by
  refine ⟨?_, ?_, ?_⟩
  · rw [executeStep_snd]
    exact chooseVariant_initRun_iff hasInitRun s
  · intro h
    simp [executeStep, h]
  · cases h : outcome (chooseVariant hasInitRun s) <;>
      simp [executeStep, h]

/-- C6 witness: on a fresh state with `init_run` present, the variant chosen
is `init_run`, and a successful call makes `step_count` positive. -/
theorem c6_init_until_first_success_witness :
    (executeStep true (fun _ => StepOutcome.success) 0 initState).2 =
      StepVariant.initRun ∧
    0 < (executeStep true (fun _ => StepOutcome.success) 0 initState).1.stepCount :=
  ⟨(c6_init_until_first_success true (fun _ => StepOutcome.success) 0
      initState).1.mpr ⟨rfl, rfl⟩,
   (c6_init_until_first_success true (fun _ => StepOutcome.success) 0
      initState).2.1 rfl⟩

/-- C2 counterexample: the state reached by run-loop entry, `pause`, `stop`
is reachable through public operations yet has `paused = true` with
`running = false` — `stop` clears `running` but leaves `paused` set, so it
does not preserve the invariant `paused ⇒ running`. -/
theorem c2_counterexample :
    Reachable pausedStoppedState ∧ pausedStoppedState.paused = true ∧
    pausedStoppedState.running = false :=
  ⟨Reachable.stop (Reachable.pause (Reachable.loopEnter Reachable.init)),
   rfl, rfl⟩

/-- C2 (amended): run-loop entry, `pause` and `resume` each preserve
`paused ⇒ running`, and pausing a non-running scheduler is a no-op; but
`stop` leaves `paused` unchanged while clearing `running`, so after a
`pause` followed by a `stop` a reachable state has `paused = true` and
`running = false` — the invariant does not hold in every reachable
state. -/
theorem c2_paused_implies_running_amended (s : SchedulerState) :
    (s.running = false → pause s = s) ∧
    ((s.paused = true → s.running = true) →
      ((pause s).paused = true → (pause s).running = true)) ∧
    ((s.paused = true → s.running = true) →
      ((resume s).paused = true → (resume s).running = true)) ∧
    ((runLoopEnter s).paused = true → (runLoopEnter s).running = true) ∧
    (stop s).paused = s.paused := by
  refine ⟨?_, ?_, ?_, ?_, ?_⟩
  · intro h
    simp [pause, h]
  · intro _ _
    by_cases hc : s.running && !s.paused <;> simp_all [pause]
  · intro hinv _
    by_cases hc : s.running && s.paused <;> simp_all [resume]
  · intro _
    simp [runLoopEnter]
  · by_cases hc : s.running <;> simp [stop, hc]

/-- C2 witness: on the fresh (not running) state, `pause` is a no-op and
`stop` leaves `paused` as it was. -/
theorem c2_paused_implies_running_amended_witness :
    pause initState = initState ∧ (stop initState).paused = initState.paused :=
  ⟨(c2_paused_implies_running_amended initState).1 rfl,
   (c2_paused_implies_running_amended initState).2.2.2.2⟩

/-- C3 counterexample: starting from a clean filesystem, `start_foreground`
reaches the run loop with neither the PID file nor the command socket
created — it calls `_run_loop` directly, never `_write_pid_file` or
`_start_command_server`, so socket-based control is not available in
foreground mode. -/
theorem c3_counterexample :
    (startForegroundFiles ⟨false, false⟩ ExitPath.normalStop).1.pidFileExists
      = false ∧
    (startForegroundFiles ⟨false, false⟩ ExitPath.normalStop).1.socketExists
      = false :=
  ⟨rfl, rfl⟩

/-- C3 (amended): only `start_daemon` creates the PID file and the command
socket before entering the run loop; `start_foreground` creates neither
(the files are exactly as it found them).  On every exit path of the run
loop — normal stop, signal-induced stop, `KeyboardInterrupt`, uncaught
error — the `finally` cleanup leaves both files absent. -/
theorem c3_files_amended (w : FsWorld) (e : ExitPath) :
    (startDaemonFiles w e).1 = ⟨true, true⟩ ∧
    (startDaemonFiles w e).2 = ⟨false, false⟩ ∧
    (startForegroundFiles w e).1 = w ∧
    (startForegroundFiles w e).2 = ⟨false, false⟩ :=
  ⟨rfl, rfl, rfl, rfl⟩

/-- C7: a PID file whose content is unparsable, or names a process that
`os.kill(pid, 0)` rejects, makes `_is_running` report not-running and
delete the stale file, so `start_daemon`'s already-running guard lets the
new instance proceed. -/
theorem c7_stale_pid_detection (alive : Int → Bool) (content : String)
    (hstale : pyInt (pyStrip content) = Except.error PyExc.valueError ∨
      ∃ pid, pyInt (pyStrip content) = Except.ok pid ∧ alive pid = false) :
    isRunning alive ⟨some content⟩ = (false, ⟨none⟩) ∧
    startDaemonProceeds alive ⟨some content⟩ = (true, ⟨none⟩) := by
  rcases hstale with h | ⟨pid, hp, hd⟩
  · simp [isRunning, startDaemonProceeds, h]
  · simp [isRunning, startDaemonProceeds, hp, hd]

/-- C7 witness: a PID file holding "12345" while no process is alive. -/
theorem c7_stale_pid_detection_witness :
    isRunning (fun _ => false) ⟨some "12345"⟩ = (false, ⟨none⟩) ∧
    startDaemonProceeds (fun _ => false) ⟨some "12345"⟩ = (true, ⟨none⟩) :=
  c7_stale_pid_detection (fun _ => false) "12345"
    (Or.inr ⟨12345, rfl, rfl⟩)

/-- A command matched by the `interval ` dispatch reaches `intervalBranch`:
such a command is distinct from the four exact-match commands. -/
theorem handleCommand_interval (s : SchedulerState) (command : String)
    (hc : pyStartsWith command "interval " = true) :
    handleCommand s command = intervalBranch s command := by
  have h1 : command ≠ "status" := by rintro rfl; exact absurd hc (by decide)
  have h2 : command ≠ "stop" := by rintro rfl; exact absurd hc (by decide)
  have h3 : command ≠ "pause" := by rintro rfl; exact absurd hc (by decide)
  have h4 : command ≠ "resume" := by rintro rfl; exact absurd hc (by decide)
  simp [handleCommand, handleCommandTry, h1, h2, h3, h4, hc]

/-- C4 counterexample: `interval -5` is not a positive integer, yet the
handler accepts it — `int()` parses `-5`, no positivity check follows, so
`interval_seconds` becomes `-5` and the response is the success
confirmation, not the invalid-format literal. -/
theorem c4_counterexample :
    handleCommand initState "interval -5" =
      ({ initState with interval_seconds := -5 },
        "Interval changed to -5 seconds") ∧
    "Interval changed to -5 seconds" ≠ invalidIntervalMsg := by
  exact ⟨rfl, by decide⟩

/-- C4 (amended): `interval <arg>` updates `interval_seconds` whenever the
first whitespace-separated argument parses as a Python integer literal —
zero and negative values included, so `interval_seconds ≥ 1` is not
maintained; only when the argument is missing (`IndexError`) or fails to
parse (`ValueError`) is the response the literal
`"Invalid interval format. Use: interval <seconds>"` with
`interval_seconds` unchanged. -/
theorem c4_interval_parse_amended (s : SchedulerState) (command : String)
    (hc : pyStartsWith command "interval " = true) :
    (∀ tok n, pyIndex (pySplit command) 1 = Except.ok tok →
        pyInt tok = Except.ok n →
        handleCommand s command =
          ({ s with interval_seconds := n },
            "Interval changed to " ++ toString n ++ " seconds")) ∧
    (∀ tok, pyIndex (pySplit command) 1 = Except.ok tok →
        pyInt tok = Except.error PyExc.valueError →
        handleCommand s command = (s, invalidIntervalMsg)) ∧
    (pyIndex (pySplit command) 1 = Except.error PyExc.indexError →
        handleCommand s command = (s, invalidIntervalMsg)) := by
  rw [handleCommand_interval s command hc]
  refine ⟨?_, ?_, ?_⟩
  · intro tok n htok hn
    simp [intervalBranch, intervalTry, htok, hn, Bind.bind, Except.bind,
      Functor.map, Except.map, Pure.pure, Except.pure]
  · intro tok htok hn
    simp [intervalBranch, intervalTry, htok, hn, Bind.bind, Except.bind,
      Functor.map, Except.map]
  · intro htok
    simp [intervalBranch, intervalTry, htok, Bind.bind, Except.bind,
      Functor.map, Except.map]

/-- C4 witness: `interval 7` parses and sets the interval to 7. -/
theorem c4_interval_parse_amended_witness :
    handleCommand initState "interval 7" =
      ({ initState with interval_seconds := 7 },
        "Interval changed to 7 seconds") :=
  (c4_interval_parse_amended initState "interval 7" (by decide)).1 "7" 7 rfl rfl

/-- Every branch of the dispatch inside the outer `try` returns normally:
the raising operations are confined to `intervalBranch`'s inner
`try/except`. -/
theorem handleCommandTry_ok (s : SchedulerState) (command : String) :
    ∃ r, handleCommandTry s command = Except.ok r := by
  unfold handleCommandTry
  split_ifs <;> exact ⟨_, rfl⟩

/-- C9: command handling is total and crash-free — for every input string
the dispatch returns a response without raising (so the outer
`except Exception` branch is never taken), and an input matching no
command yields `"Unknown command: <input>"` with the state unchanged. -/
theorem c9_handle_command_total (s : SchedulerState) (command : String) :
    (∃ r, handleCommandTry s command = Except.ok r ∧
      handleCommand s command = r) ∧
    (isKnownCommand command = false →
      handleCommand s command = (s, "Unknown command: " ++ command)) := by
  obtain ⟨r, hr⟩ := handleCommandTry_ok s command
  refine ⟨⟨r, hr, by simp [handleCommand, hr]⟩, ?_⟩
  intro hunk
  simp only [isKnownCommand, Bool.or_eq_false_iff,
    decide_eq_false_iff_not] at hunk
  obtain ⟨⟨⟨⟨h1, h2⟩, h3⟩, h4⟩, h5⟩ := hunk
  simp [handleCommand, handleCommandTry, h1, h2, h3, h4, h5]

/-- C9 witness: the unrecognized command `banana` gets the unknown-command
response and leaves the state alone. -/
theorem c9_handle_command_total_witness :
    handleCommand initState "banana" = (initState, "Unknown command: banana") :=
  (c9_handle_command_total initState "banana").2 (by decide)

end IthacaScheduler
